import Mathlib

/-!
Verification of the asynchronous venue-search resolution and nearest-venue
ranking pipeline of the ByzAnalyzer2 repository.

The development shallowly embeds the Python source:

* `utils/foottraffic_helper.py` — `haversine_meters`, `average_day_mean`,
  `top_closest_with_foot_traffic` (GeoMath and VenueRanker);
* `can/besttime.py` — `besttime_get_json` (request construction),
  `wait_for_progress_and_get_venues` (the JobResolver poll loop) and the
  fast-path venue extraction of `foot_traffic_closest`.

Python floats are modelled as real numbers where trigonometry is involved
(distances) and as rationals elsewhere (poll intervals, day-mean values);
JSON dictionaries are modelled by structures carrying exactly the fields the
code reads, plus an opaque remainder.  Wall-clock time in the poll loop is
modelled by an explicit clock that advances by each back-off sleep (network
calls are instantaneous in the model); the provider is an oracle mapping the
attempt counter to the normalized result of `besttime_get_json`.
-/

open Real

/-! ## GeoMath: `utils/foottraffic_helper.py` -/

/-- Python `math.radians`: degrees to radians. -/
noncomputable def radians (x : ℝ) : ℝ := x * (Real.pi / 180)

/-- Python `math.atan2 y x`, the two-argument arctangent with quadrant correction. -/
noncomputable def atan2 (y x : ℝ) : ℝ :=
  if 0 < x then Real.arctan (y / x)
  else if x < 0 then
    (if 0 ≤ y then Real.arctan (y / x) + Real.pi else Real.arctan (y / x) - Real.pi)
  else
    (if 0 < y then Real.pi / 2 else if y < 0 then -(Real.pi / 2) else 0)

/-- Function `haversine_meters` from `utils/foottraffic_helper.py`: great-circle
distance in meters with Earth radius 6 371 008.8 m. -/
noncomputable def haversine_meters (lat1 lon1 lat2 lon2 : ℝ) : ℝ :=
  let R : ℝ := 6371008.8
  let phi1 := radians lat1
  let phi2 := radians lat2
  let dphi := radians (lat2 - lat1)
  let dlambda := radians (lon2 - lon1)
  let a := Real.sin (dphi / 2) ^ 2 +
    Real.cos phi1 * Real.cos phi2 * Real.sin (dlambda / 2) ^ 2
  let c := 2 * atan2 (Real.sqrt a) (Real.sqrt (1 - a))
  R * c

/-- One entry of a venue's `venue_foot_traffic_forecast` list: the
`day_info` dictionary, if present.  `day_mean` is `some m` exactly when the
dictionary holds a numeric `day_mean` value `m`. -/
structure DayInfo where
  day_mean : Option ℚ
deriving DecidableEq, Repr

/-- One day of the forecast series (`d` in the `average_day_mean` loop). -/
structure ForecastDay where
  day_info : Option DayInfo
deriving DecidableEq, Repr

/-- A venue dictionary, carrying exactly the fields read by
`top_closest_with_foot_traffic` and `average_day_mean`:

* `forecast` — the truthiness of `v.get("forecast")`;
* `venue_lat` / `venue_lon` — `some` of the numeric coordinate when the key
  is present (with `None` collapsed to `none`);
* `venue_foot_traffic_forecast` — the forecast series, with a missing or
  falsy value collapsed to `[]` as `venue.get(...) or []` does;
* `rest` — the remaining dictionary entries, never inspected by the code. -/
structure Venue where
  forecast : Bool
  venue_lat : Option ℚ
  venue_lon : Option ℚ
  venue_foot_traffic_forecast : List ForecastDay
  rest : List (String × String)
deriving DecidableEq, Repr

/-- Function `average_day_mean` from `utils/foottraffic_helper.py`: accumulate the
numeric `day_info.day_mean` values, then return their arithmetic mean, or
`0.0` if none were collected. -/
def average_day_mean (venue : Venue) : ℚ :=
  let forecasts := venue.venue_foot_traffic_forecast
  let means := forecasts.foldl (fun means d =>
    let info := d.day_info.getD { day_mean := none }
    match info.day_mean with
    | some m => means ++ [m]
    | none => means) []
  if means = [] then 0 else means.sum / (means.length : ℚ)

/-- Specification-side view of the loop in `average_day_mean`: the list of
numeric `day_mean` values present in a venue's forecast series. -/
def dayMeans (venue : Venue) : List ℚ :=
  venue.venue_foot_traffic_forecast.filterMap
    (fun d => (d.day_info.getD { day_mean := none }).day_mean)

/-- A venue enriched by `top_closest_with_foot_traffic`: the shallow copy
`v_copy = dict(v)` together with the attached `"_distance_m"` and
`"_avg_day_mean"` entries. -/
structure RankedVenue where
  base : Venue
  distance_m : ℝ
  avg_day_mean : ℚ

/-- The sort key of `top_closest_with_foot_traffic`, as a relation: Python's
`key=lambda x: (x["_distance_m"], -x["_avg_day_mean"])` orders by the
lexicographic `≤` on those pairs. -/
def keyLE (x y : RankedVenue) : Prop :=
  x.distance_m < y.distance_m ∨
    (x.distance_m = y.distance_m ∧ -x.avg_day_mean ≤ -y.avg_day_mean)

noncomputable instance : DecidableRel keyLE := fun _ _ => Classical.dec _

instance : IsTotal RankedVenue keyLE where
  total a b := by
    rcases lt_trichotomy a.distance_m b.distance_m with h | h | h
    · exact Or.inl (Or.inl h)
    · rcases le_total (-a.avg_day_mean) (-b.avg_day_mean) with h' | h'
      · exact Or.inl (Or.inr ⟨h, h'⟩)
      · exact Or.inr (Or.inr ⟨h.symm, h'⟩)
    · exact Or.inr (Or.inl h)

instance : IsTrans RankedVenue keyLE where
  trans a b c hab hbc := by
    rcases hab with hab | ⟨hab, hab'⟩
    · rcases hbc with hbc | ⟨hbc, _⟩
      · exact Or.inl (hab.trans hbc)
      · exact Or.inl (hbc ▸ hab)
    · rcases hbc with hbc | ⟨hbc, hbc'⟩
      · exact Or.inl (hab ▸ hbc)
      · exact Or.inr ⟨hab.trans hbc, hab'.trans hbc'⟩

/-- Function `top_closest_with_foot_traffic` from `utils/foottraffic_helper.py`:
filter the venues with a truthy `forecast` flag and both coordinates
present, enrich a shallow copy of each with its distance to the target and
its average day-mean, sort by `(distance, -avg)` and take the first
`top_n`. -/
noncomputable def top_closest_with_foot_traffic (venues : List Venue)
    (target_lat target_lon : ℝ) (top_n : ℕ) : List RankedVenue :=
  let candidates := venues.filterMap (fun v =>
    if v.forecast = false then none
    else match v.venue_lat, v.venue_lon with
      | some lat, some lon =>
          some { base := v,
                 distance_m := haversine_meters target_lat target_lon (lat : ℝ) (lon : ℝ),
                 avg_day_mean := average_day_mean v }
      | _, _ => none)
  (candidates.insertionSort keyLE).take top_n

/-! ## ProviderClient and JobResolver: `can/besttime.py` -/

/-- A value stored under a key of a JSON response dictionary, as far as the
venue-extraction code distinguishes: a JSON array of venue objects, or
anything else (string, number, object, …). -/
inductive JField where
  | vlist (vs : List Venue)
  | other
deriving DecidableEq, Repr

/-- A decoded JSON response body: a dictionary (association list of fields,
Python dict keys being unique), or any non-dict JSON value, which the loop's
`isinstance(last_resp, dict)` guard rejects. -/
inductive JBody where
  | dict (fields : List (String × JField))
  | nondict
deriving DecidableEq, Repr

/-- The normalized result of one `besttime_get_json` call: the decoded JSON
body on a 2xx response, or the HTTP status on a non-success response (whose
body is then the error dictionary `errorBody`). -/
inductive GetResult where
  | success (body : JBody)
  | failure (status : ℕ)
deriving DecidableEq, Repr

/-- The error dictionary `besttime_get_json` builds for a non-success
response: `{"error": f"{status} {reason}", "details": ...}` — two non-list
fields. -/
def errorBody (_status : ℕ) : JBody :=
  .dict [("error", .other), ("details", .other)]

/-- The test `key in last_resp and isinstance(last_resp[key], list) and last_resp[key]`:
the non-empty venue list stored under `key`, if any. -/
def listat (fields : List (String × JField)) (key : String) :
    Option (List Venue) :=
  match fields.lookup key with
  | some (.vlist vs) => if vs = [] then none else some vs
  | _ => none

/-- The venue-extraction step of the poll-loop body
(`wait_for_progress_and_get_venues`, lines 98–106): the `venues` key first,
then the `for key in ("results", "items", "found_venues")` loop. -/
def extract_venues (last_resp : JBody) : Option (List Venue) :=
  match last_resp with
  | .nondict => none
  | .dict fields =>
    match listat fields "venues" with
    | some vs => some vs
    | none => ["results", "items", "found_venues"].findSome? (listat fields)

/-- Specification-side view of venue extraction: try a priority list of
candidate keys, first key bound to a non-empty list wins. -/
def firstNonEmptyKey (fields : List (String × JField)) :
    List String → Option (List Venue)
  | [] => none
  | k :: ks =>
    match listat fields k with
    | some vs => some vs
    | none => firstNonEmptyKey fields ks

/-- The fast-path extraction of `foot_traffic_closest`
(`can/besttime.py`, lines 236–243): only the `venues` and `results` keys are
tried, and the first one bound to a list is accepted even when the list is
empty. -/
def fastpath_venues (result : JBody) : List Venue :=
  match result with
  | .nondict => []
  | .dict fields =>
    match fields.lookup "venues" with
    | some (.vlist vs) => vs
    | _ =>
      match fields.lookup "results" with
      | some (.vlist vs) => vs
      | _ => []

/-- Terminal result of `wait_for_progress_and_get_venues`:

* `startError` — the `ValueError` raised when no truthy `job_id` and
  `collection_id` pair can be determined;
* `completed t times vs last` — `return last_resp[key], last_resp` reached at
  model time `t`, after progress calls issued at the instants `times`;
* `timedOut t times last` — `return None, last_resp` reached at model time
  `t` (the first wake-up at or past the deadline), after progress calls at
  the instants `times`; `last` is `none` when the loop body never ran. -/
inductive WaitResult where
  | startError
  | completed (t : ℚ) (times : List ℚ) (venues : List Venue) (last : JBody)
  | timedOut (t : ℚ) (times : List ℚ) (last : Option JBody)
deriving DecidableEq, Repr

/-- The `while time.time() < deadline` loop of
`wait_for_progress_and_get_venues`.  `oracle` maps the attempt counter to
the result of that attempt's `besttime_get_json('venues/progress', ...)`
call; `now` is the model clock, advanced by each `time.sleep(sleep_time)`;
`times` records the instants at which progress calls were issued.  `fuel`
bounds the number of iterations; `none` means the fuel ran out before the
loop reached a `return`. -/
def pollLoop (oracle : ℕ → GetResult) (deadline : ℚ) :
    ℚ → ℚ → ℕ → Option JBody → List ℚ → ℕ → Option WaitResult
  | _, _, _, _, _, 0 => none
  | now, interval_seconds, attempt, _last, times, fuel + 1 =>
    if now < deadline then
      let attempt := attempt + 1
      let last_resp := match oracle attempt with
        | .success body => body
        | .failure status => errorBody status
      match extract_venues last_resp with
      | some vs => some (.completed now (times ++ [now]) vs last_resp)
      | none =>
        let sleep_time := interval_seconds
        let interval_seconds := min (interval_seconds * 1.5) 8
        pollLoop oracle deadline (now + sleep_time) interval_seconds attempt
          (some last_resp) (times ++ [now]) fuel
    else some (.timedOut now times _last)

/-- The query parameters a `progress_url` contributes: the first values of
`job_id` and `collection_id` in its parsed query string, if present. -/
structure ProgressUrl where
  qs_job_id : Option String
  qs_collection_id : Option String

/-- Python truthiness of an optional string: `None` and `""` are falsy. -/
def truthyS : Option String → Bool
  | none => false
  | some s => s ≠ ""

/-- Python's `a or b` on optional strings: `a` if truthy, else `b`. -/
def pyOr (a b : Option String) : Option String :=
  if truthyS a then a else b

/-- Function `wait_for_progress_and_get_venues` from `can/besttime.py` (duplicated
verbatim in `my_app.py`): resolve the job and collection identifiers (from
the arguments, falling back to the parsed `progress_url` query string),
raise `ValueError` if either is falsy, then poll from model time `0` with
`deadline = timeout_seconds`. -/
def wait_for_progress_and_get_venues (oracle : ℕ → GetResult)
    (job_id collection_id : Option String) (progress_url : Option ProgressUrl)
    (timeout_seconds interval_seconds : ℚ) (fuel : ℕ) : Option WaitResult :=
  let job_id := match progress_url with
    | some u => pyOr job_id u.qs_job_id
    | none => job_id
  let collection_id := match progress_url with
    | some u => pyOr collection_id u.qs_collection_id
    | none => collection_id
  if truthyS job_id = false ∨ truthyS collection_id = false then
    some .startError
  else
    pollLoop oracle timeout_seconds 0 interval_seconds 0 none [] fuel

/-- Fuel sufficient for the poll loop to reach a `return`: every sleep lasts
at least `min interval_seconds 8` seconds, so this many iterations carry the
clock past the deadline. -/
def pollFuel (timeout_seconds interval_seconds : ℚ) : ℕ :=
  ⌈timeout_seconds / min interval_seconds 8⌉₊ + 1

/-! ## Request construction: `besttime_get_json` -/

/-- Default provider base URL (`BESTTIME_BASE`). -/
def BESTTIME_BASE : String := "https://besttime.app/api/v1"

/-- An HTTP request as issued by `requests.get(url, params=params)`. -/
structure HttpRequest where
  method : String
  url : String
  params : List (String × String)
deriving DecidableEq, Repr

/-- Python `s.rstrip('/')`. -/
def rstripSlash (s : String) : String :=
  ⟨(s.toList.reverse.dropWhile (· = '/')).reverse⟩

/-- Python `s.lstrip('/')`. -/
def lstripSlash (s : String) : String :=
  ⟨s.toList.dropWhile (· = '/')⟩

/-- The request issued by `besttime_get_json(endpoint, params)`: a GET to
`f"{BESTTIME_BASE.rstrip('/')}/{endpoint.lstrip('/')}"` carrying exactly the
given query parameters (no credential is added — contrast
`besttime_post_qs`, which merges in `api_key_private`). -/
def besttime_get_json_request (endpoint : String)
    (params : List (String × String)) : HttpRequest :=
  { method := "GET",
    url := rstripSlash BESTTIME_BASE ++ "/" ++ lstripSlash endpoint,
    params := params }

/-- The parameter dictionary built by each iteration of the poll loop
(line 89 of `can/besttime.py`). -/
def progress_params (job_id collection_id : String) :
    List (String × String) :=
  [("job_id", job_id), ("collection_id", collection_id), ("format", "raw")]

/-- The progress request issued by one poll-loop iteration:
`besttime_get_json('venues/progress', params)`. -/
def progressRequest (job_id collection_id : String) : HttpRequest :=
  besttime_get_json_request "venues/progress" (progress_params job_id collection_id)

/-- A progress stub that never returns venues: every call answers `200` with
an empty JSON object. -/
def notReadyOracle : ℕ → GetResult := fun _ => .success (.dict [])

/-- A progress stub that always fails: every call answers HTTP 500. -/
def failOracle : ℕ → GetResult := fun _ => .failure 500

/-! ## Concrete venues used in witnesses and counterexamples -/

/-- A venue with coordinates, a truthy `forecast` flag, and a one-day
forecast series with `day_mean = 10`. -/
def vGood : Venue :=
  { forecast := true, venue_lat := some 1, venue_lon := some 1,
    venue_foot_traffic_forecast := [{ day_info := some { day_mean := some 10 } }],
    rest := [("venue_name", "A")] }

/-- A venue with coordinates and a truthy `forecast` flag but an *empty*
forecast series. -/
def vNoSeries : Venue :=
  { forecast := true, venue_lat := some 0, venue_lon := some 0,
    venue_foot_traffic_forecast := [], rest := [] }

/-- The ranked entry `top_closest_with_foot_traffic` produces for `vGood`
with target `(0, 0)`. -/
noncomputable def rGood : RankedVenue :=
  { base := vGood,
    distance_m := haversine_meters 0 0 ((1 : ℚ) : ℝ) ((1 : ℚ) : ℝ),
    avg_day_mean := average_day_mean vGood }

/-- A venue whose forecast series is `[{day_mean: 10}, {day_mean: null},
{day_mean: 20}]`. -/
def vPartialMeans : Venue :=
  { forecast := false, venue_lat := none, venue_lon := none,
    venue_foot_traffic_forecast :=
      [{ day_info := some { day_mean := some 10 } },
       { day_info := some { day_mean := none } },
       { day_info := some { day_mean := some 20 } }],
    rest := [] }

/-- A venue whose forecast series is empty. -/
def vEmptySeries : Venue :=
  { forecast := false, venue_lat := none, venue_lon := none,
    venue_foot_traffic_forecast := [], rest := [] }

/-! ## Helper lemmas -/

/-- The accumulation loop of `average_day_mean` collects exactly the numeric
`day_mean` values, in order. -/
lemma average_day_mean_foldl :
    ∀ (l : List ForecastDay) (acc : List ℚ),
      l.foldl (fun means d =>
        let info := d.day_info.getD { day_mean := none }
        match info.day_mean with
        | some m => means ++ [m]
        | none => means) acc
      = acc ++ l.filterMap (fun d => (d.day_info.getD { day_mean := none }).day_mean)
  | [], acc => by simp
  | d :: l, acc => by
    cases h : (d.day_info.getD { day_mean := none }).day_mean with
    | none => simp [List.foldl_cons, h, average_day_mean_foldl l acc]
    | some m => simp [List.foldl_cons, h, average_day_mean_foldl l (acc ++ [m])]

/-! ## Claim theorems -/

/-- Claim C7: `average_day_mean` is total on any venue and returns the
arithmetic mean of exactly the numeric `day_mean` values present in the
forecast series, `0` when there are none; absent and non-numeric entries are
excluded from both the sum and the divisor, so `[10, absent, 20]` averages
to `15`, not `10`, and an empty series averages to `0`. -/
theorem average_day_mean_spec :
    (∀ v : Venue,
      average_day_mean v =
        if dayMeans v = [] then 0 else (dayMeans v).sum / ((dayMeans v).length : ℚ)) ∧
    average_day_mean vPartialMeans = 15 ∧
    average_day_mean vEmptySeries = 0 := by
  refine ⟨fun v => ?_, ?_, rfl⟩
  · simp only [average_day_mean, dayMeans, average_day_mean_foldl, List.nil_append]
  · norm_num [average_day_mean, vPartialMeans, List.foldl_cons, List.foldl_nil]
    exact List.cons_ne_nil _ _

/-- Lemma: `extract_venues` finds nothing in the error dictionary built for a
failed `besttime_get_json` call. -/
lemma extract_venues_errorBody (status : ℕ) :
    extract_venues (errorBody status) = none := rfl

/-- One not-yet-ready iteration of the poll loop: before the deadline, a
response without venues advances the clock by the current interval, grows
the interval by 1.5× capped at 8, and records the attempt. -/
lemma pollLoop_step (oracle : ℕ → GetResult) (deadline now interval : ℚ)
    (attempt : ℕ) (last : Option JBody) (times : List ℚ) (fuel k : ℕ)
    (body : JBody) (hf : fuel = k + 1) (h : now < deadline)
    (hor : (match oracle (attempt + 1) with
      | .success b => b
      | .failure status => errorBody status) = body)
    (hb : extract_venues body = none) :
    pollLoop oracle deadline now interval attempt last times fuel =
      pollLoop oracle deadline (now + interval) (min (interval * 1.5) 8)
        (attempt + 1) (some body) (times ++ [now]) k := by
  subst hf
  rw [pollLoop, if_pos h]
  dsimp only
  rw [hor, hb]

/-- The poll loop wakes at or past the deadline: timeout is returned. -/
lemma pollLoop_stop (oracle : ℕ → GetResult) (deadline now interval : ℚ)
    (attempt : ℕ) (last : Option JBody) (times : List ℚ) (fuel k : ℕ)
    (hf : fuel = k + 1) (h : ¬ now < deadline) :
    pollLoop oracle deadline now interval attempt last times fuel =
      some (.timedOut now times last) := by
  subst hf
  rw [pollLoop, if_neg h]

/-- With every sleep lasting at least `s` seconds, `k + 1` iterations are
enough fuel once `k` sleeps of `s` seconds carry the clock to the
deadline. -/
lemma pollLoop_isSome (oracle : ℕ → GetResult) (deadline s : ℚ)
    (hs : 0 < s) (hs8 : s ≤ 8) :
    ∀ (k : ℕ) (now interval : ℚ) (attempt : ℕ) (last : Option JBody)
      (times : List ℚ), s ≤ interval → deadline ≤ now + k * s →
      (pollLoop oracle deadline now interval attempt last times (k + 1)).isSome := by
  intro k
  induction k with
  | zero =>
    intro now interval attempt last times hi hd
    rw [pollLoop]
    have hnot : ¬ now < deadline := not_lt.mpr (by simpa using hd)
    simp [hnot]
  | succ k ih =>
    intro now interval attempt last times hi hd
    rw [pollLoop]
    by_cases h : now < deadline
    · simp only [if_pos h]
      cases hx : extract_venues (match oracle (attempt + 1) with
        | .success body => body
        | .failure status => errorBody status) with
      | some vs => simp [hx]
      | none =>
        simp only [hx]
        apply ih
        · exact le_min (hi.trans (by linarith [hs.le.trans hi])) hs8
        · have : ((k : ℚ) + 1) * s = (k : ℚ) * s + s := by ring
          push_cast at hd
          rw [this] at hd
          linarith
    · simp [h]

/-- If the poll loop returns the timeout outcome, the recorded return time
is at or past the deadline. -/
lemma pollLoop_timedOut_ge (oracle : ℕ → GetResult) (deadline : ℚ) :
    ∀ (fuel : ℕ) (now interval : ℚ) (attempt : ℕ) (last : Option JBody)
      (times : List ℚ) (t : ℚ) (ts : List ℚ) (l : Option JBody),
      pollLoop oracle deadline now interval attempt last times fuel =
        some (.timedOut t ts l) → deadline ≤ t := by
  intro fuel
  induction fuel with
  | zero => intro now interval attempt last times t ts l h; simp [pollLoop] at h
  | succ fuel ih =>
    intro now interval attempt last times t ts l h
    rw [pollLoop] at h
    by_cases hn : now < deadline
    · simp only [if_pos hn] at h
      cases hx : extract_venues (match oracle (attempt + 1) with
        | .success body => body
        | .failure status => errorBody status) with
      | some vs => rw [hx] at h; exact absurd h (by simp)
      | none => rw [hx] at h; exact ih _ _ _ _ _ _ _ _ h
    · simp only [if_neg hn] at h
      obtain ⟨ht, -, -⟩ := WaitResult.timedOut.inj (Option.some.inj h)
      exact ht ▸ not_lt.mp hn

/-- If the poll loop returns venues, the successful progress call was issued
strictly before the deadline. -/
lemma pollLoop_completed_lt (oracle : ℕ → GetResult) (deadline : ℚ) :
    ∀ (fuel : ℕ) (now interval : ℚ) (attempt : ℕ) (last : Option JBody)
      (times : List ℚ) (t : ℚ) (ts : List ℚ) (vs : List Venue) (l : JBody),
      pollLoop oracle deadline now interval attempt last times fuel =
        some (.completed t ts vs l) → t < deadline := by
  intro fuel
  induction fuel with
  | zero => intro now interval attempt last times t ts vs l h; simp [pollLoop] at h
  | succ fuel ih =>
    intro now interval attempt last times t ts vs l h
    rw [pollLoop] at h
    by_cases hn : now < deadline
    · simp only [if_pos hn] at h
      cases hx : extract_venues (match oracle (attempt + 1) with
        | .success body => body
        | .failure status => errorBody status) with
      | some vs' =>
        rw [hx] at h
        obtain ⟨ht, -, -, -⟩ := WaitResult.completed.inj (Option.some.inj h)
        exact ht ▸ hn
      | none => rw [hx] at h; exact ih _ _ _ _ _ _ _ _ _ h
    · simp only [if_neg hn] at h
      exact absurd h (by simp)

/-- Claim C1 (amended): a provider `Failure` during polling is treated
exactly like "not ready yet": the loop stores the error dictionary as the
last response and continues polling with the next back-off step; it never
terminates early on a failed progress call, and no distinct error terminal
state exists. -/
theorem poll_failure_retries (oracle : ℕ → GetResult)
    (deadline now interval : ℚ) (attempt : ℕ) (last : Option JBody)
    (times : List ℚ) (fuel status : ℕ)
    (hnow : now < deadline) (hfail : oracle (attempt + 1) = .failure status) :
    pollLoop oracle deadline now interval attempt last times (fuel + 1) =
      pollLoop oracle deadline (now + interval) (min (interval * 1.5) 8)
        (attempt + 1) (some (errorBody status)) (times ++ [now]) fuel := by
  rw [pollLoop]
  simp only [if_pos hnow, hfail, extract_venues_errorBody]

/-- Claim C1 witness: on a concrete first-attempt failure before the
deadline, the loop recurses instead of returning. -/
theorem poll_failure_retries_witness :
    (0 : ℚ) < 5 ∧ failOracle (0 + 1) = .failure 500 ∧
    pollLoop failOracle 5 0 2 0 none [] (2 + 1) =
      pollLoop failOracle 5 (0 + 2) (min (2 * 1.5) 8) (0 + 1)
        (some (errorBody 500)) ([] ++ [0]) 2 :=
  ⟨by norm_num, rfl,
    poll_failure_retries failOracle 5 0 2 0 none [] 2 500 (by norm_num) rfl⟩

/-- Claim C1 counterexample: with a provider stub that fails every progress
call (HTTP 500), the loop does not stop at the first failure: it polls
again at `t = 2` and finally returns the ordinary timeout outcome
`(None, last_error_body)` at `t = 5` — there is no distinct error terminal
state. -/
theorem poll_failure_not_distinct_counterexample :
    wait_for_progress_and_get_venues failOracle (some "j") (some "c") none
        5 2 10 = some (.timedOut 5 [0, 2] (some (errorBody 500))) ∧
    1 < ([0, 2] : List ℚ).length := by
  constructor
  · have h0 : wait_for_progress_and_get_venues failOracle (some "j") (some "c")
        none 5 2 10 = pollLoop failOracle 5 0 2 0 none [] 10 := rfl
    rw [h0]
    rw [pollLoop_step failOracle 5 0 2 0 none [] 10 9 (errorBody 500) rfl
      (by norm_num) rfl rfl]
    rw [pollLoop_step failOracle 5 (0 + 2) (min (2 * 1.5) 8) 1
      (some (errorBody 500)) ([] ++ [0]) 9 8 (errorBody 500) rfl (by norm_num)
      rfl rfl]
    rw [pollLoop_stop failOracle 5 (0 + 2 + min (2 * 1.5) 8)
      (min (min (2 * 1.5) 8 * 1.5) 8) 2 (some (errorBody 500))
      ([] ++ [0] ++ [0 + 2]) 8 7 rfl (by norm_num [min_def])]
    norm_num [min_def]
  · simp

/-- Claim C2 (amended): for any finite deadline and positive initial
interval, `wait_for_progress_and_get_venues` terminates within `pollFuel`
iterations; a timeout outcome is declared at the first wake-up at or past
the deadline (possibly strictly after it), and a completed outcome's
successful progress call happens strictly before the deadline.  Every
terminal value is `startError`, `completed` or `timedOut` by exhaustiveness
of `WaitResult`. -/
theorem wait_terminates (oracle : ℕ → GetResult)
    (job_id collection_id : Option String) (progress_url : Option ProgressUrl)
    (timeout_seconds interval_seconds : ℚ) (hi : 0 < interval_seconds) :
    (wait_for_progress_and_get_venues oracle job_id collection_id progress_url
        timeout_seconds interval_seconds
        (pollFuel timeout_seconds interval_seconds)).isSome ∧
    (∀ fuel t ts l,
      wait_for_progress_and_get_venues oracle job_id collection_id progress_url
        timeout_seconds interval_seconds fuel = some (.timedOut t ts l) →
      timeout_seconds ≤ t) ∧
    (∀ fuel t ts vs l,
      wait_for_progress_and_get_venues oracle job_id collection_id progress_url
        timeout_seconds interval_seconds fuel = some (.completed t ts vs l) →
      t < timeout_seconds) := by
  set s : ℚ := min interval_seconds 8 with hsdef
  have hs : 0 < s := lt_min hi (by norm_num)
  have hs8 : s ≤ 8 := min_le_right _ _
  refine ⟨?_, ?_, ?_⟩
  · rw [wait_for_progress_and_get_venues.eq_def]
    dsimp only
    split
    · simp
    · rw [pollFuel]
      apply pollLoop_isSome oracle timeout_seconds s hs hs8
      · exact min_le_left _ _
      · have hc : timeout_seconds / s ≤ ((⌈timeout_seconds / s⌉₊ : ℚ)) :=
          Nat.le_ceil _
        have := mul_le_mul_of_nonneg_right hc hs.le
        rw [div_mul_cancel₀ _ hs.ne'] at this
        linarith
  · intro fuel t ts l h
    rw [wait_for_progress_and_get_venues.eq_def] at h
    dsimp only at h
    split at h
    · simp at h
    · exact pollLoop_timedOut_ge oracle timeout_seconds fuel _ _ _ _ _ _ _ _ h
  · intro fuel t ts vs l h
    rw [wait_for_progress_and_get_venues.eq_def] at h
    dsimp only at h
    split at h
    · simp at h
    · exact pollLoop_completed_lt oracle timeout_seconds fuel _ _ _ _ _ _ _ _ _ h

/-- Claim C2 witness: with a never-ready stub, deadline 5 and interval 2,
the loop provably reaches a terminal outcome within `pollFuel 5 2`
iterations. -/
theorem wait_terminates_witness :
    (0 : ℚ) < 2 ∧
    (wait_for_progress_and_get_venues notReadyOracle (some "j") (some "c")
        none 5 2 (pollFuel 5 2)).isSome :=
  ⟨by norm_num,
    (wait_terminates notReadyOracle (some "j") (some "c") none 5 2
      (by norm_num)).1⟩

/-- Claim C2 counterexample: with deadline 5 and initial interval 4 the
loop sleeps 4 then 6 seconds and only returns the timeout outcome at
`t = 10`, strictly after the 5-second deadline — the loop does not
terminate "at or before the deadline". -/
theorem wait_overshoots_deadline_counterexample :
    wait_for_progress_and_get_venues notReadyOracle (some "j") (some "c")
        none 5 4 3 =
      some (.timedOut 10 [0, 4] (some (.dict []))) ∧
    (5 : ℚ) < 10 := by
  constructor
  · have h0 : wait_for_progress_and_get_venues notReadyOracle (some "j")
        (some "c") none 5 4 3 = pollLoop notReadyOracle 5 0 4 0 none [] 3 := rfl
    rw [h0]
    rw [pollLoop_step notReadyOracle 5 0 4 0 none [] 3 2 (.dict []) rfl
      (by norm_num) rfl rfl]
    rw [pollLoop_step notReadyOracle 5 (0 + 4) (min (4 * 1.5) 8) 1
      (some (.dict [])) ([] ++ [0]) 2 1 (.dict []) rfl (by norm_num) rfl rfl]
    rw [pollLoop_stop notReadyOracle 5 (0 + 4 + min (4 * 1.5) 8)
      (min (min (4 * 1.5) 8 * 1.5) 8) 2 (some (.dict []))
      ([] ++ [0] ++ [0 + 4]) 1 0 rfl (by norm_num [min_def])]
    norm_num [min_def]
  · norm_num

/-- Claim C3 (amended): with a never-ready progress stub, deadline 5 s and
initial interval 2 s, the loop makes exactly 2 progress attempts, at `t = 0`
and `t = 2` (it sleeps 2 s, grows the interval to 3 s, sleeps 3 s), and
declares the timeout at `t = 5`, returning no venues plus the last raw
response. -/
theorem poll_schedule_deadline5_interval2 :
    wait_for_progress_and_get_venues notReadyOracle (some "j") (some "c")
        none 5 2 4 =
      some (.timedOut 5 [0, 2] (some (.dict []))) := by
  have h0 : wait_for_progress_and_get_venues notReadyOracle (some "j")
      (some "c") none 5 2 4 = pollLoop notReadyOracle 5 0 2 0 none [] 4 := rfl
  rw [h0]
  rw [pollLoop_step notReadyOracle 5 0 2 0 none [] 4 3 (.dict []) rfl
    (by norm_num) rfl rfl]
  rw [pollLoop_step notReadyOracle 5 (0 + 2) (min (2 * 1.5) 8) 1
    (some (.dict [])) ([] ++ [0]) 3 2 (.dict []) rfl (by norm_num) rfl rfl]
  rw [pollLoop_stop notReadyOracle 5 (0 + 2 + min (2 * 1.5) 8)
    (min (min (2 * 1.5) 8 * 1.5) 8) 2 (some (.dict []))
    ([] ++ [0] ++ [0 + 2]) 2 1 rfl (by norm_num [min_def])]
  norm_num [min_def]

/-- Claim C3 counterexample: in the deadline-5, interval-2 configuration the
loop makes 2 progress attempts, not the 3 attempts at `t ≈ 0, 2, 4` the
claim asserts: the back-off grows the second sleep to 3 s, so the third
check happens at `t = 5`, past the deadline. -/
theorem poll_schedule_counterexample :
    wait_for_progress_and_get_venues notReadyOracle (some "j") (some "c")
        none 5 2 4 =
      some (.timedOut 5 [0, 2] (some (.dict []))) ∧
    ([0, 2] : List ℚ).length = 2 := by
  constructor
  · have h0 : wait_for_progress_and_get_venues notReadyOracle (some "j")
        (some "c") none 5 2 4 = pollLoop notReadyOracle 5 0 2 0 none [] 4 := rfl
    rw [h0]
    rw [pollLoop_step notReadyOracle 5 0 2 0 none [] 4 3 (.dict []) rfl
      (by norm_num) rfl rfl]
    rw [pollLoop_step notReadyOracle 5 (0 + 2) (min (2 * 1.5) 8) 1
      (some (.dict [])) ([] ++ [0]) 3 2 (.dict []) rfl (by norm_num) rfl rfl]
    rw [pollLoop_stop notReadyOracle 5 (0 + 2 + min (2 * 1.5) 8)
      (min (min (2 * 1.5) 8 * 1.5) 8) 2 (some (.dict []))
      ([] ++ [0] ++ [0 + 2]) 2 1 rfl (by norm_num [min_def])]
    norm_num [min_def]
  · simp

/-- Claim C4 (amended): every progress poll issued by the loop is a GET to
the provider's `venues/progress` endpoint whose query parameters are exactly
`job_id`, `collection_id` and `format=raw`; no `api_key_private` credential
is included, because `besttime_get_json` forwards the given parameters
unchanged (unlike `besttime_post_qs`, which merges the private key in). -/
theorem progress_request_params (job_id collection_id : String) :
    progressRequest job_id collection_id =
      { method := "GET",
        url := "https://besttime.app/api/v1/venues/progress",
        params := [("job_id", job_id), ("collection_id", collection_id),
                   ("format", "raw")] } ∧
    (progressRequest job_id collection_id).params.lookup "api_key_private" =
      none := by
  exact ⟨rfl, rfl⟩

/-- Claim C4 counterexample: the progress request for the concrete job `"j"`
and collection `"c"` carries no `api_key_private` query parameter at all,
refuting that every progress poll includes the private API credential. -/
theorem progress_request_no_credential_counterexample :
    (progressRequest "j" "c").params =
      [("job_id", "j"), ("collection_id", "c"), ("format", "raw")] ∧
    (progressRequest "j" "c").params.lookup "api_key_private" = none := by
  exact ⟨rfl, rfl⟩

/-- Lemma: `firstNonEmptyKey` is the `findSome?` of `listat` over the key list. -/
lemma firstNonEmptyKey_eq_findSome (fields : List (String × JField)) :
    ∀ ks : List String,
      firstNonEmptyKey fields ks = ks.findSome? (listat fields)
  | [] => by simp [firstNonEmptyKey]
  | k :: ks => by
    cases h : listat fields k with
    | none =>
      simp [firstNonEmptyKey, h, List.findSome?_cons,
        firstNonEmptyKey_eq_findSome fields ks]
    | some vs => simp [firstNonEmptyKey, h, List.findSome?_cons]

/-- Claim C9 (amended): the poll-loop body tries `venues`, `results`,
`items`, `found_venues` in that priority order and accepts the first key
bound to a non-empty list; the search fast path, however, consults only
`venues` and then `results`, accepting the first key bound to a list even
when that list is empty, so a search response whose only venue list sits
under `items` or `found_venues` yields no immediate venues. -/
theorem venue_extraction_priority :
    (∀ fields, extract_venues (.dict fields) =
      firstNonEmptyKey fields ["venues", "results", "items", "found_venues"]) ∧
    (∀ fields vs, fields.lookup "venues" = some (.vlist vs) →
      fastpath_venues (.dict fields) = vs) ∧
    (∀ fields, fields.lookup "venues" = none →
      fields.lookup "results" = none → fastpath_venues (.dict fields) = []) := by
  refine ⟨fun fields => ?_, fun fields vs h => ?_, fun fields h1 h2 => ?_⟩
  · rw [firstNonEmptyKey_eq_findSome fields]
    cases h : listat fields "venues" with
    | none => simp [extract_venues, h, List.findSome?_cons]
    | some vs => simp [extract_venues, h, List.findSome?_cons]
  · simp [fastpath_venues, h]
  · simp [fastpath_venues, h1, h2]

/-- Claim C9 witness: the two extraction characterizations applied to the
concrete body `{"items": [v]}`, whose `venues` and `results` keys are both
absent. -/
theorem venue_extraction_priority_witness :
    extract_venues (.dict [("items", JField.vlist [vNoSeries])]) =
      firstNonEmptyKey [("items", JField.vlist [vNoSeries])]
        ["venues", "results", "items", "found_venues"] ∧
    fastpath_venues (.dict [("items", JField.vlist [vNoSeries])]) = [] :=
  ⟨venue_extraction_priority.1 _, venue_extraction_priority.2.2 _ rfl rfl⟩

/-- Claim C9 counterexample: a search response whose only venue list sits
under `items` yields *no* venues on the fast path (so no `Immediate` result
with those venues), even though the poll-loop body would extract them. -/
theorem fastpath_misses_items_counterexample :
    fastpath_venues (.dict [("items", JField.vlist [vNoSeries])]) = [] ∧
    extract_venues (.dict [("items", JField.vlist [vNoSeries])]) =
      some [vNoSeries] := by
  exact ⟨rfl, rfl⟩

/-- Claim C8: the great-circle distance `haversine_meters` vanishes on
identical coordinates and is symmetric in its two coordinate pairs. -/
theorem haversine_meters_refl_symm :
    (∀ lat lon : ℝ, haversine_meters lat lon lat lon = 0) ∧
    (∀ lat1 lon1 lat2 lon2 : ℝ,
      haversine_meters lat1 lon1 lat2 lon2 = haversine_meters lat2 lon2 lat1 lon1) := by
  constructor
  · intro lat lon
    simp [haversine_meters, radians, atan2, Real.sqrt_one]
  · intro lat1 lon1 lat2 lon2
    have h1 : radians (lat1 - lat2) = -(radians (lat2 - lat1)) := by
      unfold radians; ring
    have h2 : radians (lon1 - lon2) = -(radians (lon2 - lon1)) := by
      unfold radians; ring
    simp only [haversine_meters, h1, h2, neg_div, Real.sin_neg, neg_sq]
    ring_nf

/-- Unpacking one successful step of the candidate filter: if the filter
function maps `v` to `some r`, then `v` has a truthy flag, both coordinates,
and `r` is exactly `v` enriched with the two derived fields. -/
lemma filter_candidate_eq (target_lat target_lon : ℝ) (v : Venue)
    (r : RankedVenue)
    (hf : (if v.forecast = false then none
      else match v.venue_lat, v.venue_lon with
        | some lat, some lon =>
            some { base := v,
                   distance_m :=
                     haversine_meters target_lat target_lon (lat : ℝ) (lon : ℝ),
                   avg_day_mean := average_day_mean v }
        | _, _ => none) = some r) :
    v.forecast = true ∧ ∃ lat lon, v.venue_lat = some lat ∧
      v.venue_lon = some lon ∧
      r = { base := v,
            distance_m :=
              haversine_meters target_lat target_lon (lat : ℝ) (lon : ℝ),
            avg_day_mean := average_day_mean v } := by
  by_cases hb : v.forecast = false
  · rw [if_pos hb] at hf
    exact absurd hf (by simp)
  · rw [if_neg hb] at hf
    refine ⟨by revert hb; cases v.forecast <;> simp, ?_⟩
    cases hlat : v.venue_lat with
    | none => rw [hlat] at hf; exact absurd hf (by simp)
    | some lat =>
      cases hlon : v.venue_lon with
      | none => rw [hlat, hlon] at hf; exact absurd hf (by simp)
      | some lon =>
        rw [hlat, hlon] at hf
        simp only [Option.some.injEq] at hf
        exact ⟨lat, lon, rfl, rfl, hf.symm⟩

/-- Membership in the ranker's output comes from a venue of the input list
accepted by the filter. -/
lemma mem_top_closest (venues : List Venue) (target_lat target_lon : ℝ)
    (top_n : ℕ) (r : RankedVenue)
    (hr : r ∈ top_closest_with_foot_traffic venues target_lat target_lon top_n) :
    ∃ v ∈ venues,
      (if v.forecast = false then none
        else match v.venue_lat, v.venue_lon with
          | some lat, some lon =>
              some { base := v,
                     distance_m :=
                       haversine_meters target_lat target_lon (lat : ℝ) (lon : ℝ),
                     avg_day_mean := average_day_mean v }
          | _, _ => none) = some r := by
  simp only [top_closest_with_foot_traffic] at hr
  have hr1 := List.take_subset _ _ hr
  have hr2 := (List.mem_insertionSort keyLE).mp hr1
  exact List.mem_filterMap.mp hr2

/-- Claim C5 (amended): the ranking function returns at most `top_n`
entries, and every returned entry comes from a venue with a truthy
`forecast` flag and both coordinates present.  (A non-empty forecast series
is NOT required: the filter tests the `forecast` flag, not the
`venue_foot_traffic_forecast` series.) -/
theorem rank_filter_facts (venues : List Venue) (target_lat target_lon : ℝ)
    (top_n : ℕ) :
    (top_closest_with_foot_traffic venues target_lat target_lon top_n).length ≤
      top_n ∧
    ∀ r ∈ top_closest_with_foot_traffic venues target_lat target_lon top_n,
      r.base.forecast = true ∧ r.base.venue_lat.isSome ∧
        r.base.venue_lon.isSome := by
  constructor
  · simp only [top_closest_with_foot_traffic]
    exact List.length_take_le _ _
  · intro r hr
    obtain ⟨v, -, hf⟩ :=
      mem_top_closest venues target_lat target_lon top_n r hr
    obtain ⟨hflag, lat, lon, hlat, hlon, hrv⟩ :=
      filter_candidate_eq target_lat target_lon v r hf
    subst hrv
    exact ⟨hflag, by simp [hlat], by simp [hlon]⟩

/-- Claim C5 witness: the amended facts evaluated on a concrete singleton
input accepted by the filter. -/
theorem rank_filter_facts_witness :
    (top_closest_with_foot_traffic [vGood] 0 0 2).length ≤ 2 ∧
    (rGood.base.forecast = true ∧ rGood.base.venue_lat.isSome ∧
      rGood.base.venue_lon.isSome) :=
  ⟨(rank_filter_facts [vGood] 0 0 2).1,
    (rank_filter_facts [vGood] 0 0 2).2 rGood (List.mem_singleton_self rGood)⟩

/-- Claim C5 counterexample: a venue with a truthy `forecast` flag, both
coordinates, but an *empty* forecast series is returned by the ranking
function, refuting that a venue with an empty forecast series is never
returned. -/
theorem rank_returns_empty_series_counterexample :
    (top_closest_with_foot_traffic [vNoSeries] 0 0 2).map RankedVenue.base =
      [vNoSeries] ∧
    vNoSeries.venue_foot_traffic_forecast = [] := by
  exact ⟨rfl, rfl⟩

/-- Claim C6: the ranking function's output is ordered by ascending
distance, with exact-distance ties broken by average day-mean descending —
so of two candidates at the same distance with intensities 5 and 10, the
intensity-10 one comes first. -/
theorem rank_sorted_by_distance_then_intensity (venues : List Venue)
    (target_lat target_lon : ℝ) (top_n : ℕ) :
    (top_closest_with_foot_traffic venues target_lat target_lon top_n).Sorted
      (fun a b => a.distance_m < b.distance_m ∨
        (a.distance_m = b.distance_m ∧ b.avg_day_mean ≤ a.avg_day_mean)) := by
  have h := List.sorted_insertionSort keyLE
    (venues.filterMap (fun v =>
      if v.forecast = false then none
      else match v.venue_lat, v.venue_lon with
        | some lat, some lon =>
            some { base := v,
                   distance_m :=
                     haversine_meters target_lat target_lon (lat : ℝ) (lon : ℝ),
                   avg_day_mean := average_day_mean v }
        | _, _ => none))
  have h2 : List.Pairwise keyLE _ := List.Pairwise.take (n := top_n) h
  simp only [top_closest_with_foot_traffic]
  exact h2.imp
    (fun hab => Or.imp id (fun hx => ⟨hx.1, neg_le_neg_iff.mp hx.2⟩) hab)

/-- Claim C10: the ranking function never alters its inputs — each returned
entry is a shallow copy of an input venue (the `base` component is an
element of the input list, all original fields intact) extended with
exactly the two derived fields, holding the computed distance to the target
and the venue's average day-mean. -/
theorem rank_entries_enrich_input (venues : List Venue)
    (target_lat target_lon : ℝ) (top_n : ℕ) (r : RankedVenue) (lat lon : ℚ)
    (hr : r ∈ top_closest_with_foot_traffic venues target_lat target_lon top_n)
    (hlat : r.base.venue_lat = some lat) (hlon : r.base.venue_lon = some lon) :
    r.base ∈ venues ∧
    r.distance_m = haversine_meters target_lat target_lon (lat : ℝ) (lon : ℝ) ∧
    r.avg_day_mean = average_day_mean r.base := by
  obtain ⟨v, hv, hf⟩ := mem_top_closest venues target_lat target_lon top_n r hr
  obtain ⟨-, lat', lon', hlat', hlon', hrv⟩ :=
    filter_candidate_eq target_lat target_lon v r hf
  subst hrv
  simp only at hlat hlon
  rw [hlat'] at hlat
  rw [hlon'] at hlon
  obtain rfl := Option.some.inj hlat
  obtain rfl := Option.some.inj hlon
  exact ⟨hv, rfl, rfl⟩

/-- Claim C10 witness: on a concrete singleton input, the returned entry's
base is the input venue and its derived fields hold the computed values. -/
theorem rank_entries_enrich_input_witness :
    rGood.base ∈ [vGood] ∧
    rGood.distance_m = haversine_meters 0 0 ((1 : ℚ) : ℝ) ((1 : ℚ) : ℝ) ∧
    rGood.avg_day_mean = average_day_mean rGood.base :=
  rank_entries_enrich_input [vGood] 0 0 2 rGood 1 1
    (List.mem_singleton_self rGood) rfl rfl
